import Mathlib

/-!
Verification of the `sup` orchestration engine (`sup.go`) against its
natural-language specification.

The definitions below are a shallow embedding of `sup.go`.  External
collaborators (the ssh library, the filesystem, the running agent, the task
translator and the per-host sessions whose implementation files are not part
of `src/`) are modelled as explicit inputs, following the spec's description
of their contracts.  Stateful behaviour of `Run` is modelled as a pure
function producing an outcome together with an event trace.
-/

namespace Sup

/-- An authentication identity (an `ssh.Signer`); modelled opaquely by an id,
since the core only collects signers into an ordered list. -/
structure Signer where
  id : Nat
deriving DecidableEq, Repr

/-- Go string slicing `s[:n]`: `none` models the runtime bounds panic raised
when `n > len(s)` (paths here are treated per character; the paths involved
in the claims are ASCII, where Go's byte indexing and character indexing
agree). -/
def goSliceTo (s : String) (n : Nat) : Option String :=
  if n ≤ s.length then some (String.mk (s.toList.take n)) else none

/-- Go string slicing `s[n:]`: `none` models the runtime bounds panic. -/
def goSliceFrom (s : String) (n : Nat) : Option String :=
  if n ≤ s.length then some (String.mk (s.toList.drop n)) else none

/-- Go stdlib `filepath.Join` on two components, modelled as separator
concatenation (path cleaning omitted; no claim depends on it). -/
def filepathJoin (a b : String) : String :=
  a ++ "/" ++ b

/-- `ResolvePath` (sup.go:36-47).  `home` is the outcome of `user.Current()`:
`some h` when it succeeds with home directory `h`, `none` when it fails.
The result is `none` exactly when the Go code panics (slice out of range). -/
def ResolvePath (home : Option String) (path : String) : Option String :=
  if path = "" then some ""
  else
    match goSliceTo path 2 with
    | none => none
    | some headPart =>
      if headPart = "~/" then
        match home with
        | some h =>
          match goSliceFrom path 2 with
          | none => none
          | some rest => some (filepathJoin h rest)
        | none => some path
      else some path

/-- Outcome of reading and parsing one candidate key file.  Models the
external filesystem (`ioutil.ReadFile`) and the external ssh key parser
(`ssh.ParsePrivateKey` / `ssh.ParsePrivateKeyWithPassphrase`) behind
`addPublicKeySigner` (sup.go:52-71): whether the read succeeds, the result of
the plain parse, and the result of the passphrase parse for each candidate
passphrase. -/
structure KeyFile where
  readOk : Bool
  parsePlain : Option Signer
  parseWithPass : String → Option Signer

/-- `addPublicKeySigner` (sup.go:52-71): appends one signer to the list on a
successful parse (retrying with the network password as passphrase when the
plain parse fails and the password is nonempty); returns an error, leaving
the list unchanged, otherwise. -/
def addPublicKeySigner (kf : KeyFile) (password : String) (signers : List Signer) :
    Except Unit (List Signer) :=
  if !kf.readOk then .error ()
  else
    match kf.parsePlain with
    | some s => .ok (signers ++ [s])
    | none =>
      if password ≠ "" then
        match kf.parseWithPass password with
        | some s => .ok (signers ++ [s])
        | none => .error ()
      else .error ()

/-- The signer-resolution phase of `Run` (sup.go:83-104).
`agentSigners = some ag` models a reachable agent socket (`net.Dial`
succeeded) offering signers `ag`; in that case `ag` overwrites the prior
process-wide list.  `identityFile` is the network's configured identity-file
path, `identityKey` the parse behaviour of the file behind it, and
`defaultFiles` the glob matches under the home identity directory (path and
parse behaviour each).  Returns the resulting signer list together with the
number of warnings printed. -/
def resolveSigners (agentSigners : Option (List Signer)) (identityFile : String)
    (identityKey : KeyFile) (defaultFiles : List (String × KeyFile))
    (password : String) (prior : List Signer) : List Signer × Nat :=
  let s0 := match agentSigners with
    | some ag => ag
    | none => prior
  if identityFile ≠ "" then
    match addPublicKeySigner identityKey password s0 with
    | .ok s1 => (s1, 0)
    | .error _ => (s0, 1)
  else
    (defaultFiles.foldl
      (fun acc fk =>
        if fk.1.endsWith ".pub" then acc
        else
          match addPublicKeySigner fk.2 password acc with
          | .ok s1 => s1
          | .error _ => acc) s0, 0)

/-- A failure reported by a unit's wait-for-completion, as `Run` inspects it
(sup.go:294): either a remote exit-status failure (`*ssh.ExitError`, carrying
the remote exit status) or any other failure. -/
inductive WaitError where
  | exitError (status : Nat)
  | other
deriving DecidableEq, Repr

/-- The process exit code `Run` terminates with when a unit's wait fails
(sup.go:294-302): the remote exit status itself when the failure is an
exit-status failure with status ≠ 15, the generic code 1 otherwise. -/
def failExitCode : WaitError → Nat
  | .exitError status => if status ≠ 15 then status else 1
  | .other => 1

/-- Modelled from the spec: a `Host` descriptor (the `Host` struct is defined
outside `src/`; the spec gives it a hostname and an optional per-host user
that falls back to the network's default user when empty). -/
structure Host where
  hostname : String
  user : String
deriving DecidableEq, Repr

/-- Modelled from the spec: a `Network` (the `Network` struct is defined
outside `src/`; the spec gives it an ordered host sequence, an optional relay
host, a default user, an optional password and an optional identity-file
path).  The relay host is called `bastion` as in `Run`'s code. -/
structure Network where
  name : String
  hosts : List Host
  bastion : Option Host
  user : String
  password : String
  identityFile : String
deriving DecidableEq, Repr

/-- Modelled from the spec: the fixed color palette indexed by host index
modulo its size (its contents live outside `src/`; only its use at
sup.go:150 is in `src/`). -/
def Colors : List String :=
  ["c0", "c1", "c2", "c3", "c4", "c5", "c6"]

/-- Modelled from the spec: the two Execution Unit variants.  The
`LocalhostClient` and `SSHClient` structs live outside `src/`; their
construction sites inside `Run` (sup.go:128-152) are in `src/` and are what
`clientForHost` embeds. -/
inductive Client where
  | localhost (env : String)
  | sshRemote (env : String) (host : Host) (password : String) (color : String)
deriving DecidableEq, Repr

/-- The per-host classification and construction step of `Run`'s connect loop
(sup.go:128-152): a host whose name is exactly `localhost` or starts with
`127.` becomes a localhost client whose injected environment additionally
exports the host's name; every other host becomes an ssh client carrying the
network password and a palette color chosen by host index, with the per-host
user falling back to the network's default user when empty. -/
def clientForHost (network : Network) (env : String) (i : Nat) (host : Host) : Client :=
  if host.hostname = "localhost" ∨ "127.".isPrefixOf host.hostname then
    .localhost (env ++ "export SUP_HOST=\"" ++ host.hostname ++ "\";")
  else
    let u := if host.user = "" then network.user else host.user
    .sshRemote env { hostname := host.hostname, user := u } network.password
      (Colors.getD (i % Colors.length) "")

/-- Modelled from the spec: what a unit's report-display-prefix operation
returns.  The spec describes it as a string together with its visual length,
the string carrying the unit's display color; so the string is a
zero-visual-width color part followed by the visible text, and the reported
visual length is the visible text's length. -/
structure HostLabel where
  color : String
  text : String
deriving DecidableEq, Repr

/-- The full string returned by report-display-prefix. -/
def HostLabel.full (l : HostLabel) : String := l.color ++ l.text

/-- The visual length returned by report-display-prefix. -/
def HostLabel.visLen (l : HostLabel) : Nat := l.text.length

/-- The left-padding computation of `Run` (sup.go:205-210, repeated at
sup.go:286-293): `lbl` is the string returned by the unit's
report-display-prefix, `lblLen` its reported visual length.  Note the code
guards on the string's byte length but pads by the visual-length deficit. -/
def padLabel (maxLen : Nat) (lbl : String) (lblLen : Nat) : String :=
  if lbl.length < maxLen then
    String.mk (List.replicate (maxLen - lblLen) ' ') ++ lbl
  else lbl

/-- The display label `Run` computes for one unit: empty when display of
output labels is disabled, the padded report-display-prefix string otherwise
(sup.go:202-210 and sup.go:286-293). -/
def clientLabel (lblEnabled : Bool) (maxLen : Nat) (l : HostLabel) : String :=
  if lblEnabled then padLabel maxLen l.full l.visLen else ""

/-- The visual length of a written display label built from `l`: everything
except `l`'s zero-width color part counts (pad spaces and visible text). -/
def writtenVisLen (l : HostLabel) (written : String) : Nat :=
  written.length - l.color.length

/-- The `Stackup` orchestrator state (sup.go:23-28); the parsed configuration
file is external and omitted.  The source's `prefix` flag is named
`lblEnabled` here (`prefix` is reserved in Lean). -/
structure Stackup where
  debug : Bool
  lblEnabled : Bool
  ignoreHostKey : Bool
deriving DecidableEq, Repr

/-- A connected Execution Unit as the run loop sees it: its host index and
its report-display-prefix behaviour. -/
structure ConnectedClient where
  idx : Nat
  lbl : HostLabel
deriving DecidableEq, Repr

/-- One unit bound to a task, together with the externally-determined
outcomes of its start-task call (`c.Run`, sup.go:212) and its
wait-for-completion call (`c.Wait`, sup.go:285). -/
structure TaskClient where
  client : ConnectedClient
  runErr : Bool
  waitErr : Option WaitError
deriving DecidableEq, Repr

/-- Modelled from the spec: a task produced by the external Task Translator —
one command instance bound to a subset of the run's Execution Units, carrying
an optional shared input stream. -/
structure Task where
  clients : List TaskClient
  hasInput : Bool
deriving DecidableEq, Repr

/-- The externally-determined outcome of one host's connect attempt, together
with the report-display-prefix behaviour of the resulting unit. -/
structure HostOutcome where
  connectOk : Bool
  lbl : HostLabel
deriving DecidableEq, Repr

/-- All external behaviour one `Run` call observes: the agent, the identity
key file, the default key files, the relay connect outcome and the per-host
connect outcomes. -/
structure World where
  agentSigners : Option (List Signer)
  identityKey : KeyFile
  defaultFiles : List (String × KeyFile)
  bastionOk : Bool
  hostOutcomes : List HostOutcome

/-- Observable events of one `Run` call.  `taskStart`, `copyOut` and
`copyErr` carry the display label the event writes output with; `waitFail`
carries the label a completion failure is printed with. -/
inductive Event where
  | connectBastion
  | connectHost (i : Nat)
  | taskStart (i : Nat) (lbl : String)
  | copyOut (i : Nat) (lbl : String)
  | copyErr (i : Nat) (lbl : String)
  | writeClose (i : Nat)
  | waitFail (i : Nat) (lbl : String)
  | procExit (code : Nat)
deriving DecidableEq, Repr

/-- Whether an event is a write-close call on a unit's input channel. -/
def Event.isWriteClose : Event → Bool
  | .writeClose _ => true
  | _ => false

/-- Whether an event belongs to the connect phase (relay or per-host
connection attempt), as opposed to task execution. -/
def Event.isConnect : Event → Bool
  | .connectBastion => true
  | .connectHost _ => true
  | _ => false

/-- How one `Run` call ends: normal return, an error return, or process
termination through `os.Exit`. -/
inductive RunOutcome where
  | ok
  | retError (msg : String)
  | exited (code : Nat)
deriving DecidableEq, Repr

/-- The connect fan-out of `Run` (sup.go:119-170), host order kept: one
connect event per host, the successfully connected units, and whether any
attempt failed (in which case `Run` aborts). -/
def connectPhase : Nat → List (Host × HostOutcome) →
    List Event × List ConnectedClient × Bool
  | _, [] => ([], [], false)
  | i, (_, o) :: rest =>
    let r := connectPhase (i + 1) rest
    (Event.connectHost i :: r.1,
     (if o.connectOk then [⟨i, o.lbl⟩] else []) ++ r.2.1,
     (!o.connectOk) || r.2.2)

/-- The maximum reported visual label length across the connected units
(sup.go:172-183). -/
def maxLabelLen (clients : List ConnectedClient) : Nat :=
  clients.foldl (fun m c => if c.lbl.visLen > m then c.lbl.visLen else m) 0

/-- The task-start loop of one task (sup.go:202-240): for each bound unit in
order, compute its display label, call start-task (aborting the run with the
labelled message on failure) and spawn the stdout and stderr copy operations,
each writing with that label. -/
def startPhase (sup : Stackup) (maxLen : Nat) : List TaskClient →
    List Event × Option String
  | [] => ([], none)
  | tc :: rest =>
    let lbl := clientLabel sup.lblEnabled maxLen tc.client.lbl
    if tc.runErr then ([], some (lbl ++ "task failed"))
    else
      let r := startPhase sup maxLen rest
      (Event.taskStart tc.client.idx lbl :: Event.copyOut tc.client.idx lbl ::
        Event.copyErr tc.client.idx lbl :: r.1, r.2)

/-- The shared-input closure step (sup.go:243-255): when the task carries a
shared input stream, completion of its background copy issues one write-close
call per unit in the run's full client list (`clients` at sup.go:251), not
per unit bound to the task. -/
def inputClosePhase (allClients : List ConnectedClient) (t : Task) : List Event :=
  if t.hasInput then allClients.map (fun c => Event.writeClose c.idx) else []

/-- The completion-wait step (sup.go:281-305): the first bound unit whose
wait fails determines process termination — the failure is printed with the
unit's display label and the process exits with `failExitCode` of the
failure. -/
def waitPhase (sup : Stackup) (maxLen : Nat) : List TaskClient →
    Option (Nat × String × Nat)
  | [] => none
  | tc :: rest =>
    match tc.waitErr with
    | some e =>
      some (tc.client.idx, clientLabel sup.lblEnabled maxLen tc.client.lbl, failExitCode e)
    | none => waitPhase sup maxLen rest

/-- The task loop of one command (sup.go:197-313): tasks run strictly in
order; a start-task failure returns an error, a completion failure terminates
the process. -/
def taskLoop (sup : Stackup) (allClients : List ConnectedClient) (maxLen : Nat) :
    List Task → List Event × Option RunOutcome
  | [] => ([], none)
  | t :: ts =>
    let s := startPhase sup maxLen t.clients
    match s.2 with
    | some msg => (s.1, some (.retError msg))
    | none =>
      let closeEvs := inputClosePhase allClients t
      match waitPhase sup maxLen t.clients with
      | some f =>
        (s.1 ++ closeEvs ++ [Event.waitFail f.1 f.2.1, Event.procExit f.2.2],
         some (.exited f.2.2))
      | none =>
        let r := taskLoop sup allClients maxLen ts
        (s.1 ++ closeEvs ++ r.1, r.2)

/-- The command loop of `Run` (sup.go:188-314): commands run strictly in
order; each command's translator outcome is either an ordered task list or a
translation failure, which aborts the run. -/
def commandLoop (sup : Stackup) (allClients : List ConnectedClient) (maxLen : Nat) :
    List (Except Unit (List Task)) → List Event × RunOutcome
  | [] => ([], .ok)
  | .error _ :: _ => ([], .retError "creating task failed")
  | .ok tasks :: rest =>
    let r := taskLoop sup allClients maxLen tasks
    match r.2 with
    | some o => (r.1, o)
    | none =>
      let r2 := commandLoop sup allClients maxLen rest
      (r.1 ++ r2.1, r2.2)

/-- `Run` (sup.go:76-317) as a trace-producing function.  `prior` is the
process-wide signer list before the call; the result carries the outcome, the
event trace and the process-wide signer list after the call.  Commands are
given together with their external translator outcome. -/
def Run (sup : Stackup) (network : Network) (w : World) (prior : List Signer)
    (commands : List (Except Unit (List Task))) :
    RunOutcome × List Event × List Signer :=
  if commands.isEmpty then (.retError "no commands to be run", [], prior)
  else
    let signers := (resolveSigners w.agentSigners network.identityFile w.identityKey
      w.defaultFiles network.password prior).1
    let bastionEvs := if network.bastion.isSome then [Event.connectBastion] else []
    if network.bastion.isSome && !w.bastionOk then
      (.retError "connecting to bastion failed", bastionEvs, signers)
    else
      let conn := connectPhase 0 (network.hosts.zip w.hostOutcomes)
      let maxLen := maxLabelLen conn.2.1
      if conn.2.2 then
        (.retError "connecting to clients failed", bastionEvs ++ conn.1, signers)
      else
        let r := commandLoop sup conn.2.1 maxLen commands
        (r.2, bastionEvs ++ conn.1 ++ r.1, signers)

/-- A key file that cannot be read, for runs where no credential material is
relevant. -/
def kfAbsent : KeyFile :=
  { readOk := false, parsePlain := none, parseWithPass := fun _ => none }

/-- A passphrase-protected key file whose plain parse fails and whose
passphrase parse succeeds exactly for the passphrase `"pw"`. -/
def kfProtected : KeyFile :=
  { readOk := true, parsePlain := none,
    parseWithPass := fun p => if p = "pw" then some ⟨3⟩ else none }

/-- A readable key file whose plain parse yields signer 2. -/
def kfPlain : KeyFile :=
  { readOk := true, parsePlain := some ⟨2⟩, parseWithPass := fun _ => none }

/-- Orchestrator with display labels enabled, used for concrete runs. -/
def supLbl : Stackup :=
  { debug := false, lblEnabled := true, ignoreHostKey := false }

/-- A two-host network with no relay, used for concrete runs. -/
def netTwo : Network :=
  { name := "n", hosts := [⟨"h1", ""⟩, ⟨"h2", ""⟩], bastion := none,
    user := "u", password := "", identityFile := "" }

/-- The display label reported by the first unit of the padding scenario:
a 7-character color code followed by 10 visible characters, so the reported
string has length 17 while the reported visual length is 10. -/
def lblShort : HostLabel := ⟨"0123456", "abcdefghij"⟩

/-- The display label reported by the second unit of the padding scenario:
no color code, 12 visible characters. -/
def lblLong : HostLabel := ⟨"", "abcdefghijkl"⟩

/-- External behaviour of the padding scenario: both hosts connect, the two
units reporting `lblShort` and `lblLong`. -/
def wPad : World :=
  { agentSigners := none, identityKey := kfAbsent, defaultFiles := [],
    bastionOk := true,
    hostOutcomes := [⟨true, lblShort⟩, ⟨true, lblLong⟩] }

/-- The single task of the padding scenario: bound to the first unit only,
no shared input, start and wait both succeed. -/
def taskPad : Task :=
  { clients := [{ client := ⟨0, lblShort⟩, runErr := false, waitErr := none }],
    hasInput := false }

/-- The command list of the padding scenario: one command translating to the
single task above. -/
def cmdsPad : List (Except Unit (List Task)) :=
  [.ok [taskPad]]

/-- A successful `addPublicKeySigner` call appends exactly one signer to the
list it was given. -/
theorem addPublicKeySigner_ok_append {kf : KeyFile} {pw : String}
    {s res : List Signer} (h : addPublicKeySigner kf pw s = .ok res) :
    ∃ sg, res = s ++ [sg] := by
  unfold addPublicKeySigner at h
  split at h
  · simp at h
  · split at h
    · rename_i sg _
      injection h with h
      exact ⟨sg, h.symm⟩
    · split at h
      · split at h
        · rename_i sg _
          injection h with h
          exact ⟨sg, h.symm⟩
        · simp at h
      · simp at h

/-- Every event produced by the connect fan-out is a connection attempt. -/
theorem connectPhase_events {l : List (Host × HostOutcome)} :
    ∀ i, ∀ ev ∈ (connectPhase i l).1, ev.isConnect = true := by
  induction l with
  | nil => intro i ev hev; simp [connectPhase] at hev
  | cons q rest ih =>
    obtain ⟨qh, qo⟩ := q
    intro i ev hev
    simp only [connectPhase, List.mem_cons] at hev
    rcases hev with rfl | hev
    · rfl
    · exact ih (i + 1) ev hev

/-- The connect fan-out reports failure whenever some host's attempt fails. -/
theorem connectPhase_bad {l : List (Host × HostOutcome)}
    (h : ∃ p ∈ l, p.2.connectOk = false) :
    ∀ i, (connectPhase i l).2.2 = true := by
  induction l with
  | nil => rcases h with ⟨p, hp, _⟩; simp at hp
  | cons q rest ih =>
    obtain ⟨qh, qo⟩ := q
    intro i
    rcases h with ⟨p, hp, hfalse⟩
    rcases List.mem_cons.mp hp with rfl | hmem
    · simp only at hfalse
      simp [connectPhase, hfalse]
    · have hr := ih ⟨p, hmem, hfalse⟩ (i + 1)
      simp [connectPhase, hr]

/-- The task-start loop never issues a write-close call. -/
theorem startPhase_filter_writeClose (sup : Stackup) (maxLen : Nat) :
    ∀ l : List TaskClient,
      ((startPhase sup maxLen l).1.filter Event.isWriteClose) = [] := by
  intro l
  induction l with
  | nil => rfl
  | cons tc rest ih =>
    by_cases hr : tc.runErr = true
    · simp [startPhase, hr]
    · simp only [Bool.not_eq_true] at hr
      simp [startPhase, hr, Event.isWriteClose, ih]

/-- Write-close events survive the write-close filter unchanged. -/
theorem filter_writeClose_map (cs : List ConnectedClient) :
    ((cs.map (fun c => Event.writeClose c.idx)).filter Event.isWriteClose) =
      cs.map (fun c => Event.writeClose c.idx) := by
  induction cs with
  | nil => rfl
  | cons c rest ih => simp [Event.isWriteClose, ih]

/-- C1: a bound unit whose wait-for-completion reports a remote exit-status
failure with non-zero status ≠ 15 terminates the process with exactly that
status; status 15, and any failure that is not a remote exit-status failure,
terminate it with the generic failure code 1 (sup.go:281-305).  The last
conjunct places the mapping inside the run loop's completion-wait step. -/
theorem wait_failure_exit_mapping (s : Nat) (_h0 : s ≠ 0) (h15 : s ≠ 15) :
    failExitCode (.exitError s) = s ∧
    failExitCode (.exitError 15) = 1 ∧
    failExitCode .other = 1 ∧
    ∀ (sup : Stackup) (maxLen : Nat) (c : ConnectedClient) (b : Bool)
      (rest : List TaskClient),
      waitPhase sup maxLen
          ({ client := c, runErr := b, waitErr := some (.exitError s) } :: rest) =
        some (c.idx, clientLabel sup.lblEnabled maxLen c.lbl, s) := by
  refine ⟨by simp [failExitCode, h15], by decide, rfl, ?_⟩
  intro sup maxLen c b rest
  simp [waitPhase, failExitCode, h15]

/-- Witness for C1: a unit exiting with remote status 2 terminates the
process with exit code 2. -/
theorem wait_failure_exit_mapping_witness :
    failExitCode (.exitError 2) = 2 :=
  (wait_failure_exit_mapping 2 (by decide) (by decide)).1

/-- C2 fails on the code (evaluation at the failing input): with labels
enabled and two connected units of visual lengths 10 and 12, the run writes
the first unit's label unpadded — its string is 17 bytes, so the byte-length
guard at sup.go:207 suppresses the padding — and the written label's visual
length is 10, not the maximum 12 the claim requires. -/
theorem padding_below_max_at_failing_input :
    (Run supLbl netTwo wPad [] cmdsPad).2.1 =
      [Event.connectHost 0, Event.connectHost 1,
       Event.taskStart 0 "0123456abcdefghij",
       Event.copyOut 0 "0123456abcdefghij",
       Event.copyErr 0 "0123456abcdefghij"] ∧
    wPad.hostOutcomes.map (fun o => o.lbl.visLen) = [10, 12] ∧
    writtenVisLen lblShort "0123456abcdefghij" = 10 := by
  refine ⟨by decide, by decide, by decide⟩

/-- C3: when a task carries a shared input stream, completion of its
background copy issues exactly one write-close call per connected unit of the
whole run — the loop at sup.go:251 ranges over `clients`, not over
`task.Clients` — so units not bound to the task are closed as well. -/
theorem shared_input_close_scope (sup : Stackup) (allClients : List ConnectedClient)
    (maxLen : Nat) (t : Task) (hin : t.hasInput = true)
    (hok : (startPhase sup maxLen t.clients).2 = none) :
    ((taskLoop sup allClients maxLen [t]).1.filter Event.isWriteClose) =
      allClients.map (fun c => Event.writeClose c.idx) := by
  have hclose : inputClosePhase allClients t =
      allClients.map (fun c => Event.writeClose c.idx) := by
    simp [inputClosePhase, hin]
  cases hw : waitPhase sup maxLen t.clients with
  | none =>
    simp [taskLoop, hok, hw, List.filter_append, startPhase_filter_writeClose,
      hclose, filter_writeClose_map, Event.isWriteClose]
  | some f =>
    simp [taskLoop, hok, hw, List.filter_append, startPhase_filter_writeClose,
      hclose, filter_writeClose_map, Event.isWriteClose]

/-- Witness for C3: a run with two connected units and a task bound only to
the first still write-closes both units when the shared input completes. -/
theorem shared_input_close_scope_witness :
    ((taskLoop supLbl [⟨0, lblShort⟩, ⟨1, lblLong⟩] 12
        [{ clients := [{ client := ⟨0, lblShort⟩, runErr := false, waitErr := none }],
           hasInput := true }]).1.filter Event.isWriteClose) =
      [Event.writeClose 0, Event.writeClose 1] := by
  have h := shared_input_close_scope supLbl [⟨0, lblShort⟩, ⟨1, lblLong⟩] 12
    { clients := [{ client := ⟨0, lblShort⟩, runErr := false, waitErr := none }],
      hasInput := true } rfl (by decide)
  simpa using h

/-- C4: a reachable agent's signers replace the prior process-wide list as a
full overwrite (the result is independent of the prior list, sup.go:87); a
configured identity file then appends exactly one signer on parse success and
leaves the agent-derived list unchanged with exactly one warning on parse
failure, never fatally (sup.go:90-94). -/
theorem credential_precedence (ag prior : List Signer) (idf : String) (hidf : idf ≠ "")
    (kf : KeyFile) (dfl : List (String × KeyFile)) (pw : String) :
    resolveSigners (some ag) idf kf dfl pw prior =
      resolveSigners (some ag) idf kf dfl pw [] ∧
    (∀ res, addPublicKeySigner kf pw ag = .ok res →
      (∃ sg, res = ag ++ [sg]) ∧
      resolveSigners (some ag) idf kf dfl pw prior = (res, 0)) ∧
    (∀ e, addPublicKeySigner kf pw ag = .error e →
      resolveSigners (some ag) idf kf dfl pw prior = (ag, 1)) := by
  refine ⟨rfl, ?_, ?_⟩
  · intro res h
    exact ⟨addPublicKeySigner_ok_append h, by simp [resolveSigners, hidf, h]⟩
  · intro e h
    simp [resolveSigners, hidf, h]

/-- Witness for C4: agent signers `[1]` plus a successfully parsed identity
file yield `[1, 2]` with no warning, ignoring the prior list `[9]`. -/
theorem credential_precedence_witness :
    resolveSigners (some [⟨1⟩]) "id_rsa" kfPlain [] "" [⟨9⟩] = ([⟨1⟩, ⟨2⟩], 0) :=
  ((credential_precedence [⟨1⟩] [⟨9⟩] "id_rsa" (by decide) kfPlain [] "").2.1
    [⟨1⟩, ⟨2⟩] rfl).2

/-- C5: when the plain parse of the identity file fails and the network's
password is a nonempty matching passphrase, `addPublicKeySigner` succeeds via
the passphrase retry (sup.go:58-68), appending exactly the resulting signer,
and signer resolution succeeds with no warning. -/
theorem passphrase_retry (kf : KeyFile) (pw : String) (sg : Signer)
    (hread : kf.readOk = true) (hplain : kf.parsePlain = none)
    (hpw : pw ≠ "") (hmatch : kf.parseWithPass pw = some sg) :
    (∀ signers, addPublicKeySigner kf pw signers = .ok (signers ++ [sg])) ∧
    ∀ (ag : Option (List Signer)) (prior : List Signer) (idf : String)
      (dfl : List (String × KeyFile)), idf ≠ "" →
      resolveSigners ag idf kf dfl pw prior =
        ((match ag with | some a => a | none => prior) ++ [sg], 0) := by
  have hadd : ∀ signers, addPublicKeySigner kf pw signers = .ok (signers ++ [sg]) := by
    intro signers
    simp [addPublicKeySigner, hread, hplain, hpw, hmatch]
  refine ⟨hadd, ?_⟩
  intro ag prior idf dfl hidf
  cases ag <;> simp [resolveSigners, hidf, hadd]

/-- Witness for C5: a passphrase-protected key and the matching password
`"pw"` produce the signer via the retry path. -/
theorem passphrase_retry_witness :
    addPublicKeySigner kfProtected "pw" [] = .ok [⟨3⟩] :=
  (passphrase_retry kfProtected "pw" ⟨3⟩ rfl rfl (by decide) (by decide)).1 []

/-- C6: with a configured relay host whose connection fails, `Run` returns
the wrapped relay error and the trace holds the relay attempt only — zero
per-host connection attempts occur (sup.go:107-117). -/
theorem relay_first_atomicity (sup : Stackup) (network : Network) (w : World)
    (prior : List Signer) (commands : List (Except Unit (List Task)))
    (hc : commands ≠ []) (hb : network.bastion.isSome = true)
    (hfail : w.bastionOk = false) :
    (Run sup network w prior commands).1 = .retError "connecting to bastion failed" ∧
    (Run sup network w prior commands).2.1 = [Event.connectBastion] := by
  have hne : commands.isEmpty = false := by
    cases commands with
    | nil => exact absurd rfl hc
    | cons a l => rfl
  constructor <;> simp [Run, hne, hb, hfail]

/-- Witness for C6: a concrete two-host network behind an unreachable relay
aborts with the relay error. -/
theorem relay_first_atomicity_witness :
    (Run supLbl { netTwo with bastion := some ⟨"bast", ""⟩ }
        { wPad with bastionOk := false } [] cmdsPad).1 =
      .retError "connecting to bastion failed" :=
  (relay_first_atomicity supLbl { netTwo with bastion := some ⟨"bast", ""⟩ }
    { wPad with bastionOk := false } [] cmdsPad (by simp [cmdsPad]) rfl rfl).1

/-- C7: a host named `localhost`, or whose name starts with `127.`, always
becomes the local unit variant — never the remote one — regardless of the
configured user and password, and the local unit's injected environment
additionally exports the host's name (sup.go:128-139). -/
theorem loopback_classification (network : Network) (env : String) (i : Nat)
    (host : Host)
    (h : host.hostname = "localhost" ∨ "127.".isPrefixOf host.hostname = true) :
    clientForHost network env i host =
      .localhost (env ++ "export SUP_HOST=\"" ++ host.hostname ++ "\";") := by
  unfold clientForHost
  exact if_pos h

/-- Witness for C7: host `localhost` with a configured user and a network
password still becomes a local unit exporting its name. -/
theorem loopback_classification_witness :
    clientForHost { netTwo with password := "secret" } "E;" 0 ⟨"localhost", "alice"⟩ =
      .localhost ("E;" ++ "export SUP_HOST=\"" ++ "localhost" ++ "\";") :=
  loopback_classification { netTwo with password := "secret" } "E;" 0
    ⟨"localhost", "alice"⟩ (Or.inl rfl)

/-- C8: if any per-host connection attempt fails, `Run` returns the wrapped
connect error and the whole trace consists of connection attempts only — no
command or task runs on the units that did connect (sup.go:172-186). -/
theorem connector_atomicity (sup : Stackup) (network : Network) (w : World)
    (prior : List Signer) (commands : List (Except Unit (List Task)))
    (hc : commands ≠ [])
    (hb : network.bastion.isSome = true → w.bastionOk = true)
    (hbad : ∃ p ∈ network.hosts.zip w.hostOutcomes, p.2.connectOk = false) :
    (Run sup network w prior commands).1 = .retError "connecting to clients failed" ∧
    ∀ ev ∈ (Run sup network w prior commands).2.1, ev.isConnect = true := by
  have hne : commands.isEmpty = false := by
    cases commands with
    | nil => exact absurd rfl hc
    | cons a l => rfl
  have hcond : (network.bastion.isSome && !w.bastionOk) = false := by
    cases hbs : network.bastion.isSome with
    | false => rfl
    | true => simp [hb hbs]
  have hbadc : (connectPhase 0 (network.hosts.zip w.hostOutcomes)).2.2 = true :=
    connectPhase_bad hbad 0
  constructor
  · simp [Run, hne, hcond, hbadc]
  · intro ev hev
    simp only [Run, hne, Bool.false_eq_true, if_false, hcond, hbadc, if_true] at hev
    rcases List.mem_append.mp hev with h1 | h2
    · split at h1
      · simp only [List.mem_singleton] at h1
        subst h1
        rfl
      · simp at h1
    · exact connectPhase_events 0 ev h2

/-- Witness for C8: a run where the first host fails to connect returns the
wrapped connect error. -/
theorem connector_atomicity_witness :
    (Run supLbl netTwo
        { wPad with hostOutcomes := [⟨false, lblShort⟩, ⟨true, lblLong⟩] }
        [] cmdsPad).1 =
      .retError "connecting to clients failed" :=
  (connector_atomicity supLbl netTwo
    { wPad with hostOutcomes := [⟨false, lblShort⟩, ⟨true, lblLong⟩] } [] cmdsPad
    (by simp [cmdsPad]) (by intro h; simp [netTwo] at h) (by decide)).1

/-- C9: `Run` with an empty command list returns the error
`no commands to be run` with an empty trace — so before any signer
resolution or connection attempt — and leaves the process-wide signer list
unchanged (sup.go:76-79). -/
theorem run_empty_commands (sup : Stackup) (network : Network) (w : World)
    (prior : List Signer) :
    Run sup network w prior [] = (.retError "no commands to be run", [], prior) := rfl

/-- C10 fails on the code (evaluation at the failing input): `ResolvePath` is
not total — on the one-character path `"x"` the slice `path[:2]` at
sup.go:40 is out of range and the call panics (modelled as `none`) instead of
returning `"x"` unchanged. -/
theorem resolvePath_out_of_range_on_one_char :
    ResolvePath (some "/root") "x" = none := by decide

end Sup
